import Mathlib

/-!
Verification model of the deferred-task core (`AsyncDialog<T>`) of
`native-dialog-rs` (`src/lib.rs`), together with the worker-thread bodies
spawned by the Windows dialog implementations
(`src/impl/win/file.rs::open_dialog_async`,
`src/impl/win/message.rs::message_box_async`) and the synchronous
Windows open-dialog result handling (`src/impl/win/file.rs::open_dialog`).

The task state is embedded as a structure recording, from `src/lib.rs`:
  * `spawn`    — whether the `RefCell<Option<Box<dyn FnOnce ...>>>` dispatch
                 closure is still present (`true` = `Some`),
  * `output`   — the buffer of the `crossbeam_channel::bounded(1)` channel,
  * `senderDropped` — whether the sending half has been dropped (it is moved
                 into the worker thread and dropped when the thread exits),
  * `is_future` — the `Cell<bool>` future-eligibility flag,
plus ghost fields observing the worker thread's progress through its body
(`phase`), the number of times the dispatch closure has been invoked
(`spawnCount`), and the waker handed to it at dispatch (`workerWaker`).

The worker body, taken verbatim in order from `open_dialog_async::spawn`
(file.rs lines 184-200) and `message_box_async::spawn` (message.rs lines
132-139), performs: compute the result, invoke the waker if one was given,
send the result on the channel, then exit (dropping the sender).  These are
the four `WorkerStep` transitions.  Consumer operations are the functions
`try_recv`, `recv`, `show_dialog`, `_show_dialog` and `poll`, each a direct
transcription of the corresponding method of `AsyncDialog`.
-/

/-- `std::task::Waker`, opaque to this crate: modelled as a numeric identity. -/
abbrev Waker := Nat

/-- Ghost observation of the progress of the spawned worker thread through the
body of the `spawn` closure (file.rs 184-200 / message.rs 132-139):
not yet spawned; thread created; body result computed; waker invoked
(`waker.map(|waker| waker.wake())`); result sent (`sender.send(...)`);
thread exited with the sender dropped. -/
inductive WorkerPhase (T : Type) where
  | notSpawned
  | spawned
  | computed (res : T)
  | woken (res : T)
  | sent
  | exited
deriving DecidableEq

/-- State of one `AsyncDialog<T>` (src/lib.rs lines 49-54) together with the
ghost observation of its worker thread. -/
structure AsyncDialog (T : Type) where
  /-- `spawn: RefCell<Option<Box<dyn FnOnce(Option<Waker>) ...>>>` — `true`
  iff the dispatch closure is still present. -/
  spawn : Bool
  /-- Contents of the `crossbeam_channel::bounded(1)` buffer read through
  `output: Receiver<T>`. -/
  output : Option T
  /-- Whether the sending half of the channel has been dropped. -/
  senderDropped : Bool
  /-- `is_future: Cell<bool>`. -/
  is_future : Bool
  /-- Ghost: worker-thread progress. -/
  phase : WorkerPhase T
  /-- Ghost: number of times the dispatch closure has been invoked. -/
  spawnCount : Nat
  /-- Ghost: the waker passed to the dispatch closure, if any. -/
  workerWaker : Option Waker
deriving DecidableEq

/-- Return type of `try_recv` (lib.rs 71-78): the value, or
`TryRecvError::Empty`, or `TryRecvError::Disconnected`. -/
inductive TryRecvResult (T : Type) where
  | ok (v : T)
  | empty
  | disconnected
deriving DecidableEq

/-- Return type of `recv` (lib.rs 81-83): the value or `Disconnected`. -/
inductive RecvResult (T : Type) where
  | ok (v : T)
  | disconnected
deriving DecidableEq

/-- `std::task::Poll`, extended with `panicked` for the
`self.output.recv().unwrap()` panic in `poll` (lib.rs 117) when the
channel is disconnected and empty. -/
inductive Poll (T : Type) where
  | Pending
  | Ready (v : T)
  | panicked
deriving DecidableEq

namespace AsyncDialog

/-- `AsyncDialog::new` (lib.rs 58-67): closure present, channel empty and
connected, `is_future` initialised to `true`; ghost fields record that no
worker exists and the closure has never been invoked. -/
def new (T : Type) : AsyncDialog T :=
  { spawn := true
    output := none
    senderDropped := false
    is_future := true
    phase := .notSpawned
    spawnCount := 0
    workerWaker := none }

/-- `AsyncDialog::try_recv` (lib.rs 71-78): `crossbeam` `try_recv` returns a
buffered message if present (even when disconnected), otherwise `Empty`
while the sender is alive and `Disconnected` once it is gone.  Returns the
result together with the post-state. -/
def try_recv {T : Type} (s : AsyncDialog T) : TryRecvResult T × AsyncDialog T :=
  match s.output with
  | some v => (.ok v, { s with output := none })
  | none => if s.senderDropped then (.disconnected, s) else (.empty, s)

/-- Enabledness of the blocking `recv` (lib.rs 81-83): the call returns only
once a message is buffered or the sender has been dropped. -/
def recvReady {T : Type} (s : AsyncDialog T) : Bool :=
  s.output.isSome || s.senderDropped

/-- `AsyncDialog::recv` (lib.rs 81-83), evaluated at the instant it unblocks
(see `recvReady`): the buffered value, else `Disconnected`. -/
def recv {T : Type} (s : AsyncDialog T) : RecvResult T × AsyncDialog T :=
  match s.output with
  | some v => (.ok v, { s with output := none })
  | none => (.disconnected, s)

/-- `AsyncDialog::_show_dialog` (lib.rs 94-101): take the dispatch closure if
present and invoke it with the given waker (ghost: worker becomes `spawned`,
`spawnCount` increments, the waker is recorded), returning `true`; if the
closure was already taken, return `false` and change nothing. -/
def _show_dialog {T : Type} (s : AsyncDialog T) (waker : Option Waker) :
    Bool × AsyncDialog T :=
  if s.spawn then
    (true, { s with
              spawn := false
              phase := .spawned
              spawnCount := s.spawnCount + 1
              workerWaker := waker })
  else
    (false, s)

/-- `AsyncDialog::show_dialog` (lib.rs 89-92): `_show_dialog(None)` then
`is_future.set(false)`. -/
def show_dialog {T : Type} (s : AsyncDialog T) : AsyncDialog T :=
  { (s._show_dialog none).2 with is_future := false }

/-- Enabledness of `poll`: it can block inside `self.output.recv()` (lib.rs
117), which unblocks only once a message is buffered or the sender is gone;
every other path is immediate. -/
def pollReady {T : Type} (s : AsyncDialog T) : Bool :=
  !s.is_future || s.spawn || s.output.isSome || s.senderDropped

/-- `<AsyncDialog as Future>::poll` (lib.rs 108-119), evaluated at the instant
it returns (see `pollReady`): `Pending` when `is_future` is false; else
dispatch via `_show_dialog(Some(waker))` and return `Pending` if that
triggered the spawn; else `self.output.recv().unwrap()` — `Ready` with the
buffered value, or a panic when the channel is disconnected and empty. -/
def poll {T : Type} (s : AsyncDialog T) (w : Waker) : Poll T × AsyncDialog T :=
  if !s.is_future then
    (.Pending, s)
  else
    match s._show_dialog (some w) with
    | (true, s1) => (.Pending, s1)
    | (false, s1) =>
      match s1.output with
      | some v => (.Ready v, { s1 with output := none })
      | none => (.panicked, s1)

end AsyncDialog

/-- Labels for the four atomic actions of the worker-thread body, in source
order (file.rs 184-200 / message.rs 132-139). -/
inductive WEvent where
  | run
  | wake
  | send
  | exit
deriving DecidableEq

/-- One atomic step of the worker thread whose body computes `body`.  The
order of the transitions is the order of the statements in the `spawn`
closure: compute the result, `waker.map(|waker| waker.wake())`, then
`sender.send(...)`, then the thread exits and the sender is dropped. -/
inductive WorkerStep {T : Type} (body : T) : WEvent → AsyncDialog T → AsyncDialog T → Prop where
  | run (s : AsyncDialog T) (h : s.phase = .spawned) :
      WorkerStep body .run s { s with phase := .computed body }
  | wake (s : AsyncDialog T) (res : T) (h : s.phase = .computed res) :
      WorkerStep body .wake s { s with phase := .woken res }
  | send (s : AsyncDialog T) (res : T) (h : s.phase = .woken res) :
      WorkerStep body .send s { s with phase := .sent, output := some res }
  | exit (s : AsyncDialog T) (h : s.phase = .sent) :
      WorkerStep body .exit s { s with phase := .exited, senderDropped := true }

/-- One atomic step of the whole system: a worker step, or one consumer
operation (the consumer-side blocking operations fire at the instant they
unblock, witnessed by their enabledness predicates). -/
inductive SysStep {T : Type} (body : T) : AsyncDialog T → AsyncDialog T → Prop where
  | worker (e : WEvent) (s s' : AsyncDialog T) (h : WorkerStep body e s s') :
      SysStep body s s'
  | ctry (s : AsyncDialog T) :
      SysStep body s s.try_recv.2
  | crecv (s : AsyncDialog T) (h : s.recvReady = true) :
      SysStep body s s.recv.2
  | cshow (s : AsyncDialog T) :
      SysStep body s s.show_dialog
  | cpoll (s : AsyncDialog T) (w : Waker) (h : s.pollReady = true) :
      SysStep body s (s.poll w).2

/-- Reachability of a task state from `AsyncDialog::new` under any
interleaving of worker steps and consumer operations, for a task whose body
computes `body`. -/
inductive ReachW {T : Type} (body : T) : AsyncDialog T → Prop where
  | init : ReachW body (AsyncDialog.new T)
  | step {s s' : AsyncDialog T} (hr : ReachW body s) (hs : SysStep body s s') :
      ReachW body s'

/-- Reachability using worker steps only: the evolution of a task that is
constructed but never consumed. -/
inductive ReachNoConsume {T : Type} (body : T) : AsyncDialog T → Prop where
  | init : ReachNoConsume body (AsyncDialog.new T)
  | step {s s' : AsyncDialog T} (e : WEvent) (hr : ReachNoConsume body s)
      (hs : WorkerStep body e s s') : ReachNoConsume body s'

/-! ### Windows open-dialog result handling (src/impl/win/file.rs) -/

/-- `crate::Error` (lib.rs 11-27).  Opaque payloads (`std::io::Error`,
`FromUtf8Error`) are modelled as strings. -/
inductive Error where
  | IoFailure (msg : String)
  | InvalidString (msg : String)
  | UnexpectedOutput (what : String)
  | NoImplementation
  | ImplementationError (msg : String)
deriving DecidableEq

/-- `wfd::DialogError`, as matched by `open_dialog` (file.rs 156-161):
user cancellation, or an HRESULT failure carrying the name of the failing
method. -/
inductive DialogError where
  | UserCancelled
  | HResultFailed (error_method : String) (hresult : Int)
deriving DecidableEq

/-- `wfd::OpenDialogResult`, restricted to the fields this crate reads;
paths are modelled as strings. -/
structure OpenDialogResult where
  selected_file_path : String
  selected_file_paths : List String
deriving DecidableEq

/-- Outcome handling of `open_dialog` (file.rs 152-162), parameterised by the
outcome `native` of the external call `wfd::open_dialog(params)` (the
parameter marshalling before the call configures the external dialog and
does not affect the returned value's shape): success becomes `Ok(Some(t))`,
`UserCancelled` becomes `Ok(None)`, and `HResultFailed` becomes
`Err(Error::ImplementationError(error_method))`. -/
def open_dialog (native : Except DialogError OpenDialogResult) :
    Except Error (Option OpenDialogResult) :=
  match native with
  | .ok t => .ok (some t)
  | .error e =>
    match e with
    | .UserCancelled => .ok none
    | .HResultFailed error_method _ => .error (.ImplementationError error_method)

namespace OpenSingleFile

/-- `<OpenSingleFile as Dialog>::show` (file.rs 18-28), from the native
outcome on: `open_dialog(...).map(|ok| ok.map(|some| some.selected_file_path))`. -/
def «show» (native : Except DialogError OpenDialogResult) :
    Except Error (Option String) :=
  (open_dialog native).map (fun ok => ok.map (fun t => t.selected_file_path))

end OpenSingleFile

namespace OpenMultipleFile

/-- `<OpenMultipleFile as Dialog>::show` (file.rs 49-64), from the native
outcome on: `Ok(Some(t))` yields the selected paths, `Ok(None)` yields the
empty vector, errors pass through. -/
def «show» (native : Except DialogError OpenDialogResult) :
    Except Error (List String) :=
  match open_dialog native with
  | .ok (some t) => .ok t.selected_file_paths
  | .ok none => .ok []
  | .error e => .error e

end OpenMultipleFile

namespace OpenSingleDir

/-- `<OpenSingleDir as Dialog>::show` (file.rs 89-99), from the native
outcome on: same result mapping as the single-file dialog. -/
def «show» (native : Except DialogError OpenDialogResult) :
    Except Error (Option String) :=
  (open_dialog native).map (fun ok => ok.map (fun t => t.selected_file_path))

end OpenSingleDir

/-! ### Distinguished states along the two dispatch paths -/

/-- Phases preceding the worker's `send` statement. -/
def beforeSend {T : Type} : WorkerPhase T → Bool
  | .sent => false
  | .exited => false
  | _ => true

/-- The single inductive invariant of reachable task states: the dispatch
closure has run exactly once iff it is gone; an untriggered task has no
worker; and before the worker's `send` statement the channel is empty with
the sender alive. -/
def TaskInv {T : Type} (s : AsyncDialog T) : Prop :=
  (s.spawnCount = if s.spawn then 0 else 1) ∧
  (s.spawn = true → s.phase = .notSpawned) ∧
  (beforeSend s.phase = true → s.output = none ∧ s.senderDropped = false)

/-- State right after `show_dialog` on a fresh task: dispatched without a
waker, opted out of `Future` use, worker thread just created. -/
def sShown (T : Type) : AsyncDialog T :=
  { spawn := false
    output := none
    senderDropped := false
    is_future := false
    phase := .spawned
    spawnCount := 1
    workerWaker := none }

/-- State after `show_dialog` once the worker has run to completion: the
unread result `v` is buffered and the sender is dropped. -/
def doneShown (T : Type) (v : T) : AsyncDialog T :=
  { spawn := false
    output := some v
    senderDropped := true
    is_future := false
    phase := .exited
    spawnCount := 1
    workerWaker := none }

/-- State right after a first `poll` with waker `w` on a fresh task:
dispatched with the waker, still future-eligible. -/
def sPolled (T : Type) (w : Waker) : AsyncDialog T :=
  { spawn := false
    output := none
    senderDropped := false
    is_future := true
    phase := .spawned
    spawnCount := 1
    workerWaker := some w }

/-- Future-path state in which the worker has computed its result `v` but has
not yet reached the `waker.map(|waker| waker.wake())` statement. -/
def sComputedF (T : Type) (v : T) (w : Waker) : AsyncDialog T :=
  { sPolled T w with phase := .computed v }

/-- Future-path state right after the worker invoked the waker: note the
channel is still empty. -/
def sWokenF (T : Type) (v : T) (w : Waker) : AsyncDialog T :=
  { sPolled T w with phase := .woken v }

/-- Future-path state right after the worker's `send`. -/
def sSentF (T : Type) (v : T) (w : Waker) : AsyncDialog T :=
  { sPolled T w with phase := .sent, output := some v }

/-- Future-path state once the worker has exited: unread result `v`
buffered, sender dropped, still future-eligible. -/
def doneFuture (T : Type) (v : T) (w : Waker) : AsyncDialog T :=
  { spawn := false
    output := some v
    senderDropped := true
    is_future := true
    phase := .exited
    spawnCount := 1
    workerWaker := some w }

/-- Future-path state after the buffered result has additionally been
consumed (by `try_recv`): channel empty and disconnected, task still
future-eligible and already dispatched. -/
def sDrained (T : Type) (w : Waker) : AsyncDialog T :=
  { spawn := false
    output := none
    senderDropped := true
    is_future := true
    phase := .exited
    spawnCount := 1
    workerWaker := some w }

/-! ### Frame lemmas and reachability invariants -/

lemma try_recv_frame {T : Type} (s : AsyncDialog T) :
    (s.try_recv.2).spawn = s.spawn ∧ (s.try_recv.2).is_future = s.is_future ∧
    (s.try_recv.2).phase = s.phase ∧ (s.try_recv.2).senderDropped = s.senderDropped ∧
    (s.try_recv.2).spawnCount = s.spawnCount ∧ (s.try_recv.2).workerWaker = s.workerWaker ∧
    ((s.try_recv.2).output = none ∨ (s.try_recv.2).output = s.output) := by
  unfold AsyncDialog.try_recv
  by_cases hsd : s.senderDropped = true <;>
    cases hout : s.output <;> simp [hsd, hout]

lemma recv_frame {T : Type} (s : AsyncDialog T) :
    (s.recv.2).spawn = s.spawn ∧ (s.recv.2).is_future = s.is_future ∧
    (s.recv.2).phase = s.phase ∧ (s.recv.2).senderDropped = s.senderDropped ∧
    (s.recv.2).spawnCount = s.spawnCount ∧ (s.recv.2).workerWaker = s.workerWaker ∧
    ((s.recv.2).output = none ∨ (s.recv.2).output = s.output) := by
  unfold AsyncDialog.recv
  cases hout : s.output <;> simp [hout]

lemma taskInv_new (T : Type) : TaskInv (AsyncDialog.new T) := by
  refine ⟨rfl, fun _ => rfl, fun _ => ⟨rfl, rfl⟩⟩

lemma workerStep_taskInv {T : Type} {body : T} {e : WEvent} {s s' : AsyncDialog T}
    (h : WorkerStep body e s s') (hi : TaskInv s) : TaskInv s' := by
  obtain ⟨h1, h2, h3⟩ := hi
  cases h with
  | run s hp =>
    refine ⟨h1, ?_, ?_⟩
    · intro hs; exact absurd (h2 hs) (by simp [hp])
    · intro _; exact h3 (by simp [hp, beforeSend])
  | wake s res hp =>
    refine ⟨h1, ?_, ?_⟩
    · intro hs; exact absurd (h2 hs) (by simp [hp])
    · intro _; exact h3 (by simp [hp, beforeSend])
  | send s res hp =>
    refine ⟨h1, ?_, ?_⟩
    · intro hs; exact absurd (h2 hs) (by simp [hp])
    · intro hb; exact absurd hb (by simp [beforeSend])
  | exit s hp =>
    refine ⟨h1, ?_, ?_⟩
    · intro hs; exact absurd (h2 hs) (by simp [hp])
    · intro hb; exact absurd hb (by simp [beforeSend])

lemma _show_dialog_taskInv {T : Type} {s : AsyncDialog T} (w : Option Waker)
    (hi : TaskInv s) : TaskInv (s._show_dialog w).2 := by
  obtain ⟨h1, h2, h3⟩ := hi
  unfold AsyncDialog._show_dialog
  split
  · rename_i hs
    refine ⟨by simp [h1, hs], by simp, ?_⟩
    intro _
    exact h3 (by simp [h2 hs, beforeSend])
  · exact ⟨h1, h2, h3⟩

lemma sysStep_taskInv {T : Type} {body : T} {s s' : AsyncDialog T}
    (h : SysStep body s s') (hi : TaskInv s) : TaskInv s' := by
  cases h with
  | worker e s s' hw => exact workerStep_taskInv hw hi
  | ctry s =>
    obtain ⟨h1, h2, h3⟩ := hi
    obtain ⟨f1, f2, f3, f4, f5, f6, f7⟩ := try_recv_frame s
    refine ⟨by rw [f5, f1]; exact h1, by rw [f1, f3]; exact h2, ?_⟩
    rw [f3, f4]
    intro hb
    rcases f7 with h7 | h7
    · exact ⟨h7, (h3 hb).2⟩
    · rw [h7]; exact h3 hb
  | crecv s hrdy =>
    obtain ⟨h1, h2, h3⟩ := hi
    obtain ⟨f1, f2, f3, f4, f5, f6, f7⟩ := recv_frame s
    refine ⟨by rw [f5, f1]; exact h1, by rw [f1, f3]; exact h2, ?_⟩
    rw [f3, f4]
    intro hb
    rcases f7 with h7 | h7
    · exact ⟨h7, (h3 hb).2⟩
    · rw [h7]; exact h3 hb
  | cshow s =>
    have := _show_dialog_taskInv (T := T) (s := s) none hi
    obtain ⟨h1, h2, h3⟩ := this
    exact ⟨h1, h2, h3⟩
  | cpoll s w hrdy =>
    obtain ⟨h1, h2, h3⟩ := hi
    unfold AsyncDialog.poll
    split
    · exact ⟨h1, h2, h3⟩
    · have hinv : TaskInv (s._show_dialog (some w)).2 :=
        _show_dialog_taskInv (some w) ⟨h1, h2, h3⟩
      cases hdid : s._show_dialog (some w) with
      | mk did s1 =>
        rw [hdid] at hinv
        obtain ⟨g1, g2, g3⟩ := hinv
        cases did
        · simp only
          cases hout : s1.output with
          | some v =>
            refine ⟨g1, g2, ?_⟩
            intro hb
            exact ⟨rfl, (g3 hb).2⟩
          | none => exact ⟨g1, g2, g3⟩
        · exact ⟨g1, g2, g3⟩

lemma reach_taskInv {T : Type} {body : T} {s : AsyncDialog T} (h : ReachW body s) :
    TaskInv s := by
  induction h with
  | init => exact taskInv_new T
  | step hr hs ih => exact sysStep_taskInv hs ih

/-- No step of the system ever resets the future-eligibility flag: once
`is_future` is `false` it stays `false`. -/
lemma sysStep_is_future_false {T : Type} {body : T} {s s' : AsyncDialog T}
    (h : SysStep body s s') (hf : s.is_future = false) : s'.is_future = false := by
  cases h with
  | worker e s s' hw => cases hw <;> exact hf
  | ctry s => rw [(try_recv_frame s).2.1]; exact hf
  | crecv s hrdy => rw [(recv_frame s).2.1]; exact hf
  | cshow s => rfl
  | cpoll s w hrdy => simp [AsyncDialog.poll, hf]

/-! ### Reachability of the distinguished states -/

lemma reach_sShown (T : Type) (v : T) : ReachW v (sShown T) :=
  ReachW.step ReachW.init (SysStep.cshow (AsyncDialog.new T))

lemma reach_doneShown (T : Type) (v : T) : ReachW v (doneShown T v) := by
  have h1 : ReachW v (sShown T) := reach_sShown T v
  have h2 : ReachW v ({ sShown T with phase := .computed v }) :=
    h1.step (SysStep.worker .run _ _ (WorkerStep.run (sShown T) rfl))
  have h3 : ReachW v ({ sShown T with phase := .woken v }) :=
    h2.step (SysStep.worker .wake _ _ (WorkerStep.wake _ v rfl))
  have h4 : ReachW v ({ sShown T with phase := .sent, output := some v }) :=
    h3.step (SysStep.worker .send _ _ (WorkerStep.send _ v rfl))
  exact h4.step (SysStep.worker .exit _ _ (WorkerStep.exit _ rfl))

lemma reach_sPolled (T : Type) (v : T) (w : Waker) : ReachW v (sPolled T w) :=
  ReachW.step ReachW.init (SysStep.cpoll (AsyncDialog.new T) w rfl)

lemma reach_sComputedF (T : Type) (v : T) (w : Waker) : ReachW v (sComputedF T v w) :=
  (reach_sPolled T v w).step (SysStep.worker .run _ _ (WorkerStep.run (sPolled T w) rfl))

lemma reach_doneFuture (T : Type) (v : T) (w : Waker) : ReachW v (doneFuture T v w) := by
  have h2 : ReachW v (sComputedF T v w) := reach_sComputedF T v w
  have h3 : ReachW v (sWokenF T v w) :=
    h2.step (SysStep.worker .wake _ _ (WorkerStep.wake _ v rfl))
  have h4 : ReachW v (sSentF T v w) :=
    h3.step (SysStep.worker .send _ _ (WorkerStep.send _ v rfl))
  exact h4.step (SysStep.worker .exit _ _ (WorkerStep.exit _ rfl))

lemma reach_sDrained (T : Type) (v : T) (w : Waker) : ReachW v (sDrained T w) :=
  (reach_doneFuture T v w).step (SysStep.ctry (doneFuture T v w))

/-! ### Claims -/

/-- C1 (counterexample): the claim that the waker is invoked strictly after
the send — so that at the moment of the wake the value is already in the
channel — is false: in the execution where a fresh task is polled with waker
`0` and the worker body computes `42`, the worker reaches its wake statement
(`waker.map(|waker| waker.wake())`, file.rs 196 / message.rs 135) with the
channel still empty, because the `sender.send(..)` statement comes after it
in the source. -/
theorem wake_with_empty_channel_cex :
    ReachW 42 (sComputedF Nat 42 0) ∧
    WorkerStep 42 WEvent.wake (sComputedF Nat 42 0) (sWokenF Nat 42 0) ∧
    (sComputedF Nat 42 0).workerWaker = some 0 ∧
    (sComputedF Nat 42 0).output = none :=
  ⟨reach_sComputedF Nat 42 0, WorkerStep.wake _ 42 rfl, rfl, rfl⟩

/-- C1 (amended): in every execution, the worker invokes the wake handle
strictly BEFORE sending the task body's result on the channel: at the moment
the waker is invoked the channel is still empty and the sender still alive,
and it remains empty immediately after the wake. -/
theorem wake_strictly_before_send {T : Type} (body : T) (s s' : AsyncDialog T)
    (hr : ReachW body s) (hw : WorkerStep body WEvent.wake s s') :
    s.output = none ∧ s.senderDropped = false ∧ s'.output = none := by
  obtain ⟨-, -, h3⟩ := reach_taskInv hr
  cases hw with
  | wake s res hp =>
    obtain ⟨ho, hd⟩ := h3 (by simp [hp, beforeSend])
    exact ⟨ho, hd, ho⟩

/-- C1 (witness): the amended statement evaluated on the concrete execution
of `wake_with_empty_channel_cex`. -/
theorem wake_strictly_before_send_witness :
    (sComputedF Nat 42 0).output = none ∧ (sComputedF Nat 42 0).senderDropped = false ∧
    (sWokenF Nat 42 0).output = none :=
  wake_strictly_before_send 42 (sComputedF Nat 42 0) (sWokenF Nat 42 0)
    (reach_sComputedF Nat 42 0) (WorkerStep.wake _ 42 rfl)

/-- C2: the internal trigger primitive `_show_dialog` dispatches at most
once: on a state still holding the closure it takes it, reports `true` and
increments the ghost dispatch counter; any call on the resulting state
reports `false` and changes nothing; and on every reachable state of every
task the dispatch closure has been invoked at most once. -/
theorem trigger_at_most_once {T : Type} (body : T) (s u : AsyncDialog T)
    (w w' : Option Waker) (hs : s.spawn = true) (hu : ReachW body u) :
    (s._show_dialog w).1 = true ∧
    ((s._show_dialog w).2).spawn = false ∧
    ((s._show_dialog w).2).spawnCount = s.spawnCount + 1 ∧
    ((s._show_dialog w).2)._show_dialog w' = (false, (s._show_dialog w).2) ∧
    u.spawnCount ≤ 1 := by
  have hcount := (reach_taskInv hu).1
  refine ⟨by simp [AsyncDialog._show_dialog, hs], by simp [AsyncDialog._show_dialog, hs],
    by simp [AsyncDialog._show_dialog, hs], by simp [AsyncDialog._show_dialog, hs], ?_⟩
  rw [hcount]
  split <;> simp

/-- C2 (witness): the trigger contract evaluated on a fresh task. -/
theorem trigger_at_most_once_witness :
    ((AsyncDialog.new Nat)._show_dialog none).1 = true ∧
    (((AsyncDialog.new Nat)._show_dialog none).2).spawn = false ∧
    (((AsyncDialog.new Nat)._show_dialog none).2).spawnCount =
      (AsyncDialog.new Nat).spawnCount + 1 ∧
    (((AsyncDialog.new Nat)._show_dialog none).2)._show_dialog (some 0) =
      (false, ((AsyncDialog.new Nat)._show_dialog none).2) ∧
    (AsyncDialog.new Nat).spawnCount ≤ 1 :=
  trigger_at_most_once 42 (AsyncDialog.new Nat) (AsyncDialog.new Nat) none (some 0)
    rfl ReachW.init

/-- C3: `show_dialog` clears the future-eligibility flag; no step of the
system ever sets it back; and polling a task whose flag is cleared returns
`Pending` with the state — in particular the channel — completely
untouched.  Hence after `show_dialog`, cooperative polling reports `Pending`
forever, even with the worker's unread result sitting in the channel. -/
theorem show_dialog_freezes_future {T : Type} (body : T) (s0 s s' : AsyncDialog T)
    (w : Waker) (hstep : SysStep body s s') (hf : s.is_future = false) :
    (s0.show_dialog).is_future = false ∧ s'.is_future = false ∧
    s.poll w = (Poll.Pending, s) := by
  refine ⟨rfl, sysStep_is_future_false hstep hf, ?_⟩
  simp [AsyncDialog.poll, hf]

/-- C3 (witness): evaluated on the state where the blocked-start task's
worker has completed and its unread result `42` sits in the channel. -/
theorem show_dialog_freezes_future_witness :
    ((AsyncDialog.new Nat).show_dialog).is_future = false ∧
    ((doneShown Nat 42).try_recv.2).is_future = false ∧
    (doneShown Nat 42).poll 0 = (Poll.Pending, doneShown Nat 42) :=
  show_dialog_freezes_future 42 (AsyncDialog.new Nat) (doneShown Nat 42)
    ((doneShown Nat 42).try_recv.2) 0 (SysStep.ctry (doneShown Nat 42)) rfl

/-- C4: for a task body returning `v`, starting the task with `show_dialog`
and letting the worker run to completion (worker exited, sender dropped) is a
reachable execution after which `recv` returns immediately with `Ok v`, and a
second `recv` on the resulting state yields `Disconnected`. -/
theorem recv_roundtrip (T : Type) (v : T) :
    ReachW v (doneShown T v) ∧
    (doneShown T v).senderDropped = true ∧
    (doneShown T v).phase = WorkerPhase.exited ∧
    (doneShown T v).recvReady = true ∧
    ((doneShown T v).recv).1 = RecvResult.ok v ∧
    ((((doneShown T v).recv).2).recv).1 = RecvResult.disconnected :=
  ⟨reach_doneShown T v, rfl, rfl, rfl, rfl, rfl⟩

/-- C5: on a still-future-eligible task, the first `poll` invokes the
dispatch closure (ghost counter increments) and returns `Pending`; a
subsequent `poll` (closure already taken) performs the blocking receive and
returns `Ready` with the received value, consuming it from the channel. -/
theorem poll_state_machine {T : Type} (v : T) (s t : AsyncDialog T) (w w' : Waker)
    (hsf : s.is_future = true) (hsp : s.spawn = true)
    (htf : t.is_future = true) (htp : t.spawn = false) (htc : t.output = some v) :
    (s.poll w).1 = Poll.Pending ∧
    ((s.poll w).2).spawn = false ∧
    ((s.poll w).2).spawnCount = s.spawnCount + 1 ∧
    t.poll w' = (Poll.Ready v, { t with output := none }) := by
  refine ⟨?_, ?_, ?_, ?_⟩ <;>
    simp [AsyncDialog.poll, AsyncDialog._show_dialog, hsf, hsp, htf, htp, htc]

/-- C5 (witness): first poll on a fresh task, subsequent poll on the state
with the worker's result `42` buffered. -/
theorem poll_state_machine_witness :
    ((AsyncDialog.new Nat).poll 0).1 = Poll.Pending ∧
    (((AsyncDialog.new Nat).poll 0).2).spawn = false ∧
    (((AsyncDialog.new Nat).poll 0).2).spawnCount = (AsyncDialog.new Nat).spawnCount + 1 ∧
    (doneFuture Nat 42 0).poll 1 =
      (Poll.Ready 42, { doneFuture Nat 42 0 with output := none }) :=
  poll_state_machine 42 (AsyncDialog.new Nat) (doneFuture Nat 42 0) 0 1
    rfl rfl rfl rfl rfl

/-- C6 (counterexample): the claim that `try_recv` leaves all task state
unchanged is false: on the reachable state holding the worker's buffered
result `42`, `try_recv` returns the value and the post-state differs from
the pre-state (the buffered value has been consumed). -/
theorem try_recv_not_pure_inspection_cex :
    ReachW 42 (doneFuture Nat 42 0) ∧
    ((doneFuture Nat 42 0).try_recv).1 = TryRecvResult.ok 42 ∧
    ((doneFuture Nat 42 0).try_recv).2 ≠ doneFuture Nat 42 0 := by
  refine ⟨reach_doneFuture Nat 42 0, rfl, ?_⟩
  decide

/-- C6 (amended): `try_recv` never blocks (it is a total function of the
state), never invokes the dispatch closure, and leaves the dispatch state,
future-eligibility flag, worker phase, sender status and dispatch count
unchanged — though it does consume a buffered value rather than merely
inspecting it; on a reachable task that has not been triggered it returns
`Empty`; it returns the value if one is already in the channel; and it
returns `Disconnected` when the sending side is gone with no value
pending. -/
theorem try_recv_nonblocking_amended {T : Type} (body v : T) (s u p q : AsyncDialog T)
    (hu : ReachW body u) (husp : u.spawn = true)
    (hp : p.output = some v) (hq1 : q.output = none) (hq2 : q.senderDropped = true) :
    ((s.try_recv).2.spawn = s.spawn ∧ (s.try_recv).2.is_future = s.is_future ∧
      (s.try_recv).2.phase = s.phase ∧ (s.try_recv).2.senderDropped = s.senderDropped ∧
      (s.try_recv).2.spawnCount = s.spawnCount) ∧
    (u.try_recv).1 = TryRecvResult.empty ∧
    (p.try_recv).1 = TryRecvResult.ok v ∧
    (q.try_recv).1 = TryRecvResult.disconnected := by
  obtain ⟨f1, f2, f3, f4, f5, f6, f7⟩ := try_recv_frame s
  obtain ⟨-, h2, h3⟩ := reach_taskInv hu
  obtain ⟨ho, hd⟩ := h3 (by simp [h2 husp, beforeSend])
  refine ⟨⟨f1, f2, f3, f4, f5⟩, ?_, ?_, ?_⟩
  · simp [AsyncDialog.try_recv, ho, hd]
  · simp [AsyncDialog.try_recv, hp]
  · simp [AsyncDialog.try_recv, hq1, hq2]

/-- C6 (witness): the amended contract evaluated on concrete states: a fresh
task (`Empty`), the buffered-result state (`ok 42`), and the drained
disconnected state (`Disconnected`). -/
theorem try_recv_nonblocking_amended_witness :
    (((doneShown Nat 42).try_recv).2.spawn = (doneShown Nat 42).spawn ∧
      ((doneShown Nat 42).try_recv).2.is_future = (doneShown Nat 42).is_future ∧
      ((doneShown Nat 42).try_recv).2.phase = (doneShown Nat 42).phase ∧
      ((doneShown Nat 42).try_recv).2.senderDropped = (doneShown Nat 42).senderDropped ∧
      ((doneShown Nat 42).try_recv).2.spawnCount = (doneShown Nat 42).spawnCount) ∧
    ((AsyncDialog.new Nat).try_recv).1 = TryRecvResult.empty ∧
    ((doneFuture Nat 42 0).try_recv).1 = TryRecvResult.ok 42 ∧
    ((sDrained Nat 0).try_recv).1 = TryRecvResult.disconnected :=
  try_recv_nonblocking_amended 42 42 (doneShown Nat 42) (AsyncDialog.new Nat)
    (doneFuture Nat 42 0) (sDrained Nat 0) ReachW.init rfl rfl rfl rfl

/-- C7: construction is side-effect free: a constructed task holds the intact
dispatch closure, an empty connected channel, and future-eligibility `true`,
with the dispatch counter at zero and no worker; and any state reachable
without consumer operations is the construction state itself, so a task that
is never consumed never invokes its dispatch closure. -/
theorem new_task_is_inert {T : Type} (body : T) (s : AsyncDialog T)
    (h : ReachNoConsume body s) :
    s = AsyncDialog.new T ∧ (AsyncDialog.new T).spawn = true ∧
    (AsyncDialog.new T).output = none ∧ (AsyncDialog.new T).is_future = true ∧
    (AsyncDialog.new T).spawnCount = 0 ∧
    (AsyncDialog.new T).phase = WorkerPhase.notSpawned := by
  refine ⟨?_, rfl, rfl, rfl, rfl, rfl⟩
  induction h with
  | init => rfl
  | step e hr hs ih =>
    subst ih
    cases hs <;> simp_all [AsyncDialog.new]

/-- C7 (witness): the construction state itself. -/
theorem new_task_is_inert_witness :
    AsyncDialog.new Nat = AsyncDialog.new Nat ∧ (AsyncDialog.new Nat).spawn = true ∧
    (AsyncDialog.new Nat).output = none ∧ (AsyncDialog.new Nat).is_future = true ∧
    (AsyncDialog.new Nat).spawnCount = 0 ∧
    (AsyncDialog.new Nat).phase = WorkerPhase.notSpawned :=
  new_task_is_inert 42 (AsyncDialog.new Nat) ReachNoConsume.init

/-- C8: the core passes the task body's result through the channel
unchanged, for an arbitrary result type and value (so it can neither inspect
nor transform it): in the completed executions on both dispatch paths,
`recv`, `try_recv` and a `Ready` poll all surface exactly the value the body
produced — including, concretely, the error value `Err(IoFailure)`, which is
surfaced as that very error and not as `Disconnected`. -/
theorem result_passthrough (T : Type) (v : T) (w : Waker) :
    ReachW v (doneFuture T v w) ∧
    ((doneFuture T v w).recv).1 = RecvResult.ok v ∧
    ((doneFuture T v w).try_recv).1 = TryRecvResult.ok v ∧
    ((doneFuture T v w).poll w).1 = Poll.Ready v ∧
    ReachW v (doneShown T v) ∧
    ((doneShown T v).recv).1 = RecvResult.ok v ∧
    ((doneShown (Except Error Nat) (Except.error (Error.IoFailure "io"))).recv).1 =
      RecvResult.ok (Except.error (Error.IoFailure "io")) := by
  refine ⟨reach_doneFuture T v w, rfl, rfl, ?_, reach_doneShown T v, rfl, rfl⟩
  simp [AsyncDialog.poll, AsyncDialog._show_dialog, doneFuture]

/-- C9: on a still-future-eligible, already-dispatched task whose channel is
empty with the sender dropped, `poll` reaches `self.output.recv().unwrap()`
on a `Disconnected` error and panics; and such a state is reachable (first
poll dispatches, the worker completes, `try_recv` consumes the one value,
and the next poll panics). -/
theorem poll_panics_after_drain {T : Type} (s : AsyncDialog T) (w : Waker)
    (h1 : s.is_future = true) (h2 : s.spawn = false)
    (h3 : s.output = none) (h4 : s.senderDropped = true) :
    (s.poll w).1 = Poll.panicked ∧
    ReachW (42 : Nat) (sDrained Nat 0) ∧
    (sDrained Nat 0).is_future = true ∧ (sDrained Nat 0).spawn = false ∧
    (sDrained Nat 0).output = none ∧ (sDrained Nat 0).senderDropped = true := by
  refine ⟨?_, reach_sDrained Nat 42 0, rfl, rfl, rfl, rfl⟩
  simp [AsyncDialog.poll, AsyncDialog._show_dialog, h1, h2, h3]

/-- C9 (witness): the panic evaluated on the concrete drained state. -/
theorem poll_panics_after_drain_witness :
    ((sDrained Nat 0).poll 1).1 = Poll.panicked ∧
    ReachW (42 : Nat) (sDrained Nat 0) ∧
    (sDrained Nat 0).is_future = true ∧ (sDrained Nat 0).spawn = false ∧
    (sDrained Nat 0).output = none ∧ (sDrained Nat 0).senderDropped = true :=
  poll_panics_after_drain (sDrained Nat 0) 1 rfl rfl rfl rfl

/-- C10: when the native Windows call reports `UserCancelled`, the
synchronous show paths return success — `Ok(None)` for the single-file and
single-directory dialogs and `Ok(vec![])` for the multiple-file dialog —
while an `HResultFailed { error_method, .. }` outcome is surfaced as
`Err(Error::ImplementationError(error_method))`, and a successful outcome is
wrapped in `Ok(Some(..))`. -/
theorem cancellation_is_success (m : String) (code : Int) (t : OpenDialogResult) :
    open_dialog (Except.error DialogError.UserCancelled) = Except.ok none ∧
    OpenSingleFile.«show» (Except.error DialogError.UserCancelled) = Except.ok none ∧
    OpenSingleDir.«show» (Except.error DialogError.UserCancelled) = Except.ok none ∧
    OpenMultipleFile.«show» (Except.error DialogError.UserCancelled) = Except.ok [] ∧
    open_dialog (Except.error (DialogError.HResultFailed m code)) =
      Except.error (Error.ImplementationError m) ∧
    OpenSingleFile.«show» (Except.error (DialogError.HResultFailed m code)) =
      Except.error (Error.ImplementationError m) ∧
    OpenMultipleFile.«show» (Except.error (DialogError.HResultFailed m code)) =
      Except.error (Error.ImplementationError m) ∧
    open_dialog (Except.ok t) = Except.ok (some t) :=
  ⟨rfl, rfl, rfl, rfl, rfl, rfl, rfl, rfl⟩
